import Mathlib

/-!
Verification development for the EuroFencing scraper.

The definitions below are a shallow embedding of `eurofencing_scraper.py`:
the row parsers (`scrape_fencers_page` / `scrape_rankings` inner loops), the
country-discovery routine, the fencer paging loop and the ranking
combination sweep.  Browser interaction is abstracted away: page state is
passed in as plain data (lists of cell strings, lists of select options,
a page-fetch function), and the loops are instrumented to return the trace
of pages / filter combinations actually fetched.  Python strings are
modelled over their ASCII fragment; Python `float` values are modelled as
rationals.
-/

set_option maxRecDepth 100000

namespace EuroFencing

/-- Characters of a string after Python `str.strip()`: leading and trailing
whitespace removed. -/
def trimChars (cs : List Char) : List Char :=
  ((cs.dropWhile Char.isWhitespace).reverse.dropWhile Char.isWhitespace).reverse

/-- Model of Python `str.strip()` (ASCII whitespace). -/
def pyStrip (s : String) : String :=
  String.mk (trimChars s.data)

/-- Model of Python `str.lower()` on ASCII text. -/
def pyLower (s : String) : String :=
  String.mk (s.data.map Char.toLower)

/-- True when every character is an ASCII decimal digit. -/
def charsAreDigits (cs : List Char) : Bool :=
  cs.all Char.isDigit

/-- Model of Python `str.isdigit()` on ASCII text: nonempty and all digits. -/
def pyIsdigit (s : String) : Bool :=
  !s.data.isEmpty && charsAreDigits s.data

/-- Numeric value of a digit string (the value Python `int()` returns on a
string accepted by `isdigit`, ASCII fragment). -/
def digitsVal (cs : List Char) : Nat :=
  cs.foldl (fun n c => n * 10 + (c.toNat - 48)) 0

/-- Model of Python `int()` on a string already validated by `isdigit`. -/
def digitsToNat (s : String) : Nat :=
  digitsVal s.data

/-- Model of Python `str.replace('.', '')`: every dot removed. -/
def removeDots (s : String) : String :=
  String.mk (s.data.filter (fun c => c != '.'))

/-- Split a character list on the dot character; used to model Python
`float()` on digit-and-dot strings. -/
def splitOnDot : List Char → List (List Char)
  | [] => [[]]
  | c :: rest =>
    if c = '.' then [] :: splitOnDot rest
    else
      match splitOnDot rest with
      | [] => [[c]]
      | grp :: grps => (c :: grp) :: grps

/-- Model of Python `float()` restricted to the strings reachable through
the scraper's coefficient guard (digits and dots): it succeeds exactly when
the text has at most one dot and at least one digit, and raises (modelled
as `none`) otherwise — in particular on text with two or more dots. -/
def pyFloat (s : String) : Option ℚ :=
  match splitOnDot s.data with
  | [w] =>
    if w ≠ [] ∧ charsAreDigits w then some (digitsVal w : ℚ) else none
  | [w, f] =>
    if (w ++ f) ≠ [] ∧ charsAreDigits (w ++ f) then
      some ((digitsVal w : ℚ) + (digitsVal f : ℚ) / ((10 : ℚ) ^ f.length))
    else none
  | _ => none

/-- True when `needle` occurs at the head of the character list. -/
def startsWithChars : List Char → List Char → Bool
  | [], _ => true
  | _ :: _, [] => false
  | a :: as, b :: bs => a == b && startsWithChars as bs

/-- True when `needle` occurs somewhere in the character list. -/
def containsChars (needle : List Char) : List Char → Bool
  | [] => startsWithChars needle []
  | b :: bs => startsWithChars needle (b :: bs) || containsChars needle bs

/-- Model of the Python substring test `needle in hay` (nonempty needles). -/
def pyContains (hay needle : String) : Bool :=
  containsChars needle.data hay.data

/-- The `FencerProfile` dataclass of the scraper. -/
structure FencerProfile where
  licence : String
  first_name : String
  last_name : String
  club : String
  nation : String
  birth_year : Nat
  gender : String
  handedness : String
deriving DecidableEq, Repr

/-- The `RankingEntry` dataclass of the scraper. -/
structure RankingEntry where
  rank : Nat
  competition : String
  venue : String
  nation : String
  category : String
  discipline : String
  coefficient : ℚ
  season : String
  weapon : String
  age_group : String
  gender : String
deriving DecidableEq, Repr

/-- The gender marker expression of `scrape_fencers_page`, literally: the
source tests `"men" in gender.lower()` before `"women" in gender.lower()`. -/
def genderMarker (gender : String) : String :=
  if pyContains (pyLower gender) "men" then "M"
  else if pyContains (pyLower gender) "women" then "F"
  else ""

/-- The text of cell `i` of a row after stripping, `cells[i].text.strip()`
in the source; rows are only indexed within bounds there, so the default
for an out-of-range index is never observable. -/
def cellText (cells : List String) (i : Nat) : String :=
  pyStrip (cells.getD i "")

/-- One iteration of the row loop of `scrape_fencers_page`: a row (its `td`
cell texts) becomes a `FencerProfile` when it has at least 7 cells; the
`birth_year` cell parses to its numeric value when it passes `isdigit` and
to the sentinel 0 otherwise. -/
def parseFencerRow (gender : String) (cells : List String) : Option FencerProfile :=
  if 7 ≤ cells.length then
    some
      { licence := cellText cells 0
        last_name := cellText cells 1
        first_name := cellText cells 2
        club := cellText cells 3
        nation := cellText cells 4
        birth_year :=
          if pyIsdigit (cellText cells 5) then digitsToNat (cellText cells 5) else 0
        gender := genderMarker gender
        handedness := if 6 < cells.length then cellText cells 6 else "" }
  else none

/-- The coefficient guard of `scrape_rankings`, literally
`len(cells) > 6 and cells[6].text.strip().replace('.', '').isdigit()`. -/
def coefGuard (cells : List String) : Bool :=
  decide (6 < cells.length) && pyIsdigit (removeDots (cellText cells 6))

/-- One iteration of the row loop of `scrape_rankings`: a row with at least
6 cells becomes a `RankingEntry`.  The coefficient comes from cell 6 when
the row has more than 6 cells and the dot-stripped cell text passes
`isdigit`; if the subsequent `float()` conversion still fails (two or more
dots) the `ValueError` is caught by the loop and the row is skipped
(`none`), exactly as in the source. -/
def parseRankingRow (gender weapon age_category season : String) (cells : List String) :
    Option RankingEntry :=
  if 6 ≤ cells.length then
    let base : ℚ → RankingEntry := fun coeff =>
      { rank :=
          if pyIsdigit (cellText cells 0) then digitsToNat (cellText cells 0) else 0
        competition := cellText cells 1
        venue := cellText cells 2
        nation := cellText cells 3
        category := cellText cells 4
        discipline := cellText cells 5
        coefficient := coeff
        season := season
        weapon := weapon
        age_group := age_category
        gender := gender }
    if coefGuard cells then
      match pyFloat (cellText cells 6) with
      | some c => some (base c)
      | none => none
    else some (base 0)
  else none

/-- The row loop of `scrape_fencers_page`, with the accumulator (the local
`fencers` list the Python loop appends to) made explicit. -/
def fencersRowLoop (gender : String) : List (List String) → List FencerProfile → List FencerProfile
  | [], acc => acc
  | cells :: rest, acc =>
    match parseFencerRow gender cells with
    | some f => fencersRowLoop gender rest (acc ++ [f])
    | none => fencersRowLoop gender rest acc

/-- The row loop of `scrape_rankings`, with the accumulator explicit. -/
def rankingsRowLoop (gender weapon age_category season : String) :
    List (List String) → List RankingEntry → List RankingEntry
  | [], acc => acc
  | cells :: rest, acc =>
    match parseRankingRow gender weapon age_category season cells with
    | some r => rankingsRowLoop gender weapon age_category season rest (acc ++ [r])
    | none => rankingsRowLoop gender weapon age_category season rest acc

/-- The observable state of the fencer search results view: which numeric
page affordances are present, and the result table rows (the first row is
the header, skipped by the source via `rows[1:]`). -/
structure FencersPageEnv where
  availablePages : List Nat
  rows : List (List String)
deriving Repr

/-- Embedding of `scrape_fencers_page`: when a page beyond 1 is requested
and no matching page affordance exists, the function returns the empty list
(the pagination-exhaustion signal); otherwise it parses the table rows
after the header. -/
def scrape_fencers_page (env : FencersPageEnv) (page : Nat) (gender : String) :
    List FencerProfile :=
  if 1 < page ∧ page ∉ env.availablePages then []
  else fencersRowLoop gender (env.rows.drop 1) []

/-- Embedding of the table-extraction part of `scrape_rankings`: parse all
rows after the header under the active filter combination. -/
def scrape_rankings_rows (gender weapon age_category season : String)
    (rows : List (List String)) : List RankingEntry :=
  rankingsRowLoop gender weapon age_category season (rows.drop 1) []

/-- Embedding of `get_countries_list`.  The input is the list of `select`
controls on the page, each given by its option values.  An empty page (no
select at all) makes the explicit wait raise, which the `except` branch
turns into `[]`.  Otherwise the first select with more than 50 options is
used; when no select qualifies the Python function falls off the end of
its body and returns `None`, modelled as `none`. -/
def get_countries_list (selects : List (List String)) : Option (List String) :=
  if selects.isEmpty then some []
  else
    match selects.find? (fun opts => decide (50 < opts.length)) with
    | some opts => some ((opts.drop 1).filter (fun v => !v.isEmpty && v.length == 3))
    | none => none

/-- The fixed default country sample of `main`. -/
def fallback_sample_countries : List String :=
  ["QAT", "UAE", "SAU", "FRA", "GER"]

/-- Embedding of the phase-1 country selection in `main`:
`sample_countries = countries[:5] if countries else [...]`, preceded by
`len(countries)` in a log call, which raises `TypeError` when
`get_countries_list` returned `None`. -/
def main_phase1_sample_countries (countries : Option (List String)) :
    Except String (List String) :=
  match countries with
  | none => Except.error "TypeError"
  | some cs => Except.ok (if cs.isEmpty then fallback_sample_countries else cs.take 5)

/-- The configured gender filters. -/
def filter_genders : List String := ["men", "women"]

/-- The configured weapon filters. -/
def filter_weapons : List String := ["foil", "epee", "sabre"]

/-- The configured age-category filters. -/
def filter_age_categories : List String := ["cadet", "u23", "u14"]

/-- The configured season filters. -/
def filter_seasons : List String :=
  ["2025", "2024", "2023", "2022", "2021", "2020", "2019", "2018"]

/-- One filter combination handed to `scrape_rankings`. -/
structure Combination where
  gender : String
  weapon : String
  age_category : String
  season : String
deriving DecidableEq, Repr

/-- The ceiling test of `scrape_all_rankings`, literally
`if limit_combinations and combinations_scraped >= limit_combinations`:
`None` and `0` are both falsy, so they disable the ceiling. -/
def limitReached (limit : Option Nat) (scraped : Nat) : Bool :=
  match limit with
  | none => false
  | some l => l != 0 && decide (l ≤ scraped)

/-- Innermost loop of `scrape_all_rankings` (over seasons): the ceiling is
checked before each fetch; reaching it breaks the loop. -/
def seasonLoop (g w a : String) (seasons : List String) (limit : Option Nat) (scraped : Nat) :
    List Combination × Nat :=
  match seasons with
  | [] => ([], scraped)
  | s :: rest =>
    if limitReached limit scraped then ([], scraped)
    else
      let next := seasonLoop g w a rest limit (scraped + 1)
      (⟨g, w, a, s⟩ :: next.1, next.2)

/-- Age-category loop of `scrape_all_rankings`: after each inner sweep the
ceiling is checked again and breaks this level too. -/
def ageLoop (g w : String) (ages : List String) (limit : Option Nat) (scraped : Nat) :
    List Combination × Nat :=
  match ages with
  | [] => ([], scraped)
  | a :: rest =>
    let done := seasonLoop g w a filter_seasons limit scraped
    if limitReached limit done.2 then done
    else
      let next := ageLoop g w rest limit done.2
      (done.1 ++ next.1, next.2)

/-- Weapon loop of `scrape_all_rankings`. -/
def weaponLoop (g : String) (weapons : List String) (limit : Option Nat) (scraped : Nat) :
    List Combination × Nat :=
  match weapons with
  | [] => ([], scraped)
  | w :: rest =>
    let done := ageLoop g w filter_age_categories limit scraped
    if limitReached limit done.2 then done
    else
      let next := weaponLoop g rest limit done.2
      (done.1 ++ next.1, next.2)

/-- Gender (outermost) loop of `scrape_all_rankings`. -/
def genderLoop (genders : List String) (limit : Option Nat) (scraped : Nat) :
    List Combination × Nat :=
  match genders with
  | [] => ([], scraped)
  | g :: rest =>
    let done := weaponLoop g filter_weapons limit scraped
    if limitReached limit done.2 then done
    else
      let next := genderLoop rest limit done.2
      (done.1 ++ next.1, next.2)

/-- Embedding of `scrape_all_rankings`, instrumented to return the sequence
of filter combinations for which `scrape_rankings` is invoked. -/
def scrape_all_rankings_combos (limit : Option Nat) : List Combination :=
  (genderLoop filter_genders limit 0).1

/-- The page-ceiling test of `scrape_all_fencers`, literally
`if max_pages and page > max_pages`: `None` and `0` disable the ceiling. -/
def pageCeilingHit (max_pages : Option Nat) (page : Nat) : Bool :=
  match max_pages with
  | none => false
  | some m => m != 0 && decide (m < page)

/-- The per-country `while True` paging loop of `scrape_all_fencers`,
instrumented to return the trace of page numbers passed to
`scrape_fencers_page`.  `fuel` bounds the number of loop iterations so the
embedding is total; the theorems below supply enough fuel that the bound is
never the reason the loop stops. -/
def fencerPages (fetch : Nat → List FencerProfile) (max_pages : Option Nat) :
    Nat → Nat → List Nat
  | 0, _ => []
  | fuel + 1, page =>
    if pageCeilingHit max_pages page then []
    else if (fetch page).isEmpty then [page]
    else page :: fencerPages fetch max_pages fuel (page + 1)

/-- The per-country sweep of `scrape_all_fencers`: pages are fetched from 1
upward. -/
def scrape_all_fencers_pages (fetch : Nat → List FencerProfile) (max_pages : Option Nat)
    (fuel : Nat) : List Nat :=
  fencerPages fetch max_pages fuel 1

/-- Claim C1: the claim says a gender filter matching "women" yields the
marker "F" and never "M".  Evaluating the embedded parser on a well-formed
row with the filter "women" produces the marker "M": the source tests the
substring "men" first, and "men" occurs inside "women", so the "F" branch
is unreachable. -/
theorem women_filter_marks_fencer_male :
    (parseFencerRow "women" ["12345678", "Doe", "Jane", "Club X", "FRA", "1998", "R"]).map
      FencerProfile.gender = some "M" := by decide

/-- Claim C2, counterexample: the coefficient cell "1.2.3" passes the
source's guard (`replace('.', '').isdigit()` is true), so `float()` is
called, raises `ValueError`, and the row is skipped — the parser yields no
record instead of substituting the sentinel 0.0. -/
theorem coefficient_guard_passes_yet_row_skipped :
    pyIsdigit (removeDots (pyStrip "1.2.3")) = true ∧
    parseRankingRow "men" "foil" "cadet" "2024"
      ["1", "A", "B", "C", "D", "E", "1.2.3"] = none := by decide

/-- Claim C2, amended: a non-numeric `birth_year` cell always yields the
sentinel 0 without skipping the fencer row.  In a ranking row, a non-digit
rank cell yields the sentinel 0 with the row kept whenever the coefficient
cell does not raise (its guard fails, or `float()` succeeds on it), and a
coefficient cell that fails the dot-stripped digit guard always yields the
sentinel 0.0 with the row kept, whatever the rank cell holds; only a
coefficient cell that passes the guard but is not a valid float (two or
more dots) makes the row raise and be skipped. -/
theorem numeric_cells_sentinel_amended (g w a s : String) (fcells rcells : List String) :
    (7 ≤ fcells.length → pyIsdigit (cellText fcells 5) = false →
      (parseFencerRow g fcells).map FencerProfile.birth_year = some 0) ∧
    (6 ≤ rcells.length → pyIsdigit (cellText rcells 0) = false →
      (coefGuard rcells = true → (pyFloat (cellText rcells 6)).isSome) →
      (parseRankingRow g w a s rcells).map RankingEntry.rank = some 0) ∧
    (6 ≤ rcells.length → pyIsdigit (removeDots (cellText rcells 6)) = false →
      (parseRankingRow g w a s rcells).map RankingEntry.coefficient = some 0) := by
  refine ⟨?_, ?_, ?_⟩
  · intro h7 hbad
    simp [parseFencerRow, h7, hbad]
  · intro h6 hrank hnoraise
    cases hg : coefGuard rcells with
    | false => simp [parseRankingRow, h6, hg, hrank]
    | true =>
      obtain ⟨c, hc⟩ := Option.isSome_iff_exists.mp (hnoraise hg)
      simp [parseRankingRow, h6, hg, hc, hrank]
  · intro h6 hcoef
    have hg : coefGuard rcells = false := by
      simp [coefGuard, hcoef]
    simp [parseRankingRow, h6, hg]

/-- Claim C2, witness for the amended statement at concrete rows: a fencer
row with non-numeric birth year, a ranking row with non-digit rank and a
valid coefficient, and a ranking row with digit rank and a guard-failing
coefficient — each kept, each with the sentinel. -/
theorem numeric_cells_sentinel_amended_witness :
    (parseFencerRow "men" ["12345678", "Doe", "Jane", "Club X", "USA", "19x8", "R"]).map
      FencerProfile.birth_year = some 0 ∧
    (parseRankingRow "men" "foil" "cadet" "2024"
      ["x", "A", "B", "C", "D", "E", "7.50"]).map RankingEntry.rank = some 0 ∧
    (parseRankingRow "men" "foil" "cadet" "2024"
      ["1", "A", "B", "C", "D", "E", "abc"]).map RankingEntry.coefficient = some 0 := by
  have h1 := numeric_cells_sentinel_amended "men" "foil" "cadet" "2024"
    ["12345678", "Doe", "Jane", "Club X", "USA", "19x8", "R"]
    ["x", "A", "B", "C", "D", "E", "7.50"]
  have h2 := numeric_cells_sentinel_amended "men" "foil" "cadet" "2024"
    ["12345678", "Doe", "Jane", "Club X", "USA", "19x8", "R"]
    ["1", "A", "B", "C", "D", "E", "abc"]
  exact ⟨h1.1 (by decide) (by decide),
    h1.2.1 (by decide) (by decide) (by decide),
    h2.2.2 (by decide) (by decide)⟩

/-- Claim C4, counterexample: a ranking row with 7 cells — at least the
6-cell minimum — is still skipped by the parser, because its coefficient
cell "2.5.0" passes the digit guard but fails the `float()` conversion; so
"parse failure exactly when the row is below the minimum column count" is
false on the code. -/
theorem minimum_length_row_still_skipped :
    6 ≤ (["1", "A", "B", "C", "D", "E", "2.5.0"] : List String).length ∧
    parseRankingRow "women" "epee" "u23" "2023"
      ["1", "A", "B", "C", "D", "E", "2.5.0"] = none := by decide

/-- Claim C4, amended: a fencer row is accepted exactly when it has at
least 7 cells; a ranking row is accepted exactly when it has at least 6
cells and, in case its coefficient cell passes the dot-stripped digit
guard, the `float()` conversion also succeeds.  Short rows are never padded
into partial records. -/
theorem row_acceptance_characterization (g w a s : String) (fcells rcells : List String) :
    ((parseFencerRow g fcells).isSome ↔ 7 ≤ fcells.length) ∧
    ((parseRankingRow g w a s rcells).isSome ↔
      (6 ≤ rcells.length ∧
        (coefGuard rcells = true → (pyFloat (cellText rcells 6)).isSome))) := by
  constructor
  · by_cases h : 7 ≤ fcells.length <;> simp [parseFencerRow, h]
  · by_cases h6 : 6 ≤ rcells.length
    · cases hg : coefGuard rcells with
      | false => simp [parseRankingRow, h6, hg]
      | true =>
        cases hf : pyFloat (cellText rcells 6) with
        | none => simp [parseRankingRow, h6, hg, hf]
        | some c => simp [parseRankingRow, h6, hg, hf]
    · simp [parseRankingRow, h6]

/-- Claim C4, witness: the characterization instantiated at a 6-cell row
(below the 7-cell fencer minimum, at the 6-cell ranking minimum). -/
theorem row_acceptance_characterization_witness :
    ((parseFencerRow "men" ["12345678", "Doe", "Jane", "Club X", "USA", "1998"]).isSome ↔
      7 ≤ (["12345678", "Doe", "Jane", "Club X", "USA", "1998"] : List String).length) ∧
    ((parseRankingRow "men" "foil" "cadet" "2024"
        ["1", "A", "B", "C", "D", "E"]).isSome ↔
      (6 ≤ (["1", "A", "B", "C", "D", "E"] : List String).length ∧
        (coefGuard ["1", "A", "B", "C", "D", "E"] = true →
          (pyFloat (cellText ["1", "A", "B", "C", "D", "E"] 6)).isSome))) :=
  row_acceptance_characterization "men" "foil" "cadet" "2024"
    ["12345678", "Doe", "Jane", "Club X", "USA", "1998"] ["1", "A", "B", "C", "D", "E"]

/-- Claim C5: when select controls are present but none has more than 50
options, `get_countries_list` falls off the end of its body and returns
`None` (not the empty list the claim describes); `main` then evaluates
`len(countries)` which raises `TypeError`, so the fencer sweep never
reaches the fallback.  The fallback does work when an empty list is
actually returned, showing the divergence is solely the `None` return. -/
theorem missing_country_select_returns_none :
    get_countries_list [["", "AAA", "BBB"]] = none ∧
    main_phase1_sample_countries none = Except.error "TypeError" ∧
    main_phase1_sample_countries (some []) = Except.ok ["QAT", "UAE", "SAU", "FRA", "GER"] :=
  ⟨rfl, rfl, rfl⟩

/-- Claim C7: requesting a page beyond 1 when no matching page affordance
exists on the results view returns the empty list — the
pagination-exhaustion signal — rather than an error. -/
theorem missing_page_affordance_returns_empty (env : FencersPageEnv) (page : Nat)
    (g : String) (h1 : 1 < page) (h2 : page ∉ env.availablePages) :
    scrape_fencers_page env page g = [] := by
  simp only [scrape_fencers_page]
  rw [if_pos ⟨h1, h2⟩]

/-- Claim C7, witness: page 2 requested on a view with no page affordances. -/
theorem missing_page_affordance_returns_empty_witness :
    scrape_fencers_page ⟨[], []⟩ 2 "" = [] :=
  missing_page_affordance_returns_empty ⟨[], []⟩ 2 "" (by decide) (by decide)

/-- Claim C8: the concrete scenario row parses, under the filters
gender "men", weapon "foil", age_category "cadet", season "2024", to
exactly the stated `RankingEntry` with coefficient 7.50. -/
theorem ranking_scenario_row_parses :
    parseRankingRow "men" "foil" "cadet" "2024"
      ["1", "Grand Prix Paris", "Paris", "FRA", "Senior", "Foil", "7.50"] =
    some { rank := 1, competition := "Grand Prix Paris", venue := "Paris", nation := "FRA",
           category := "Senior", discipline := "Foil", coefficient := 7.5,
           season := "2024", weapon := "foil", age_group := "cadet", gender := "men" } := by
  have h : parseRankingRow "men" "foil" "cadet" "2024"
      ["1", "Grand Prix Paris", "Paris", "FRA", "Senior", "Foil", "7.50"] =
    some { rank := 1, competition := "Grand Prix Paris", venue := "Paris", nation := "FRA",
           category := "Senior", discipline := "Foil",
           coefficient := ((7 : ℕ) : ℚ) + ((50 : ℕ) : ℚ) / (10 : ℚ) ^ (2 : ℕ),
           season := "2024", weapon := "foil", age_group := "cadet", gender := "men" } := rfl
  rw [h]
  norm_num

/-- Claim C10: a ranking row with exactly 6 cells is always accepted and
always carries coefficient 0, since the coefficient is read from cell 6
only when more than 6 cells are present. -/
theorem six_cell_row_zero_coefficient (g w a s : String) (cells : List String)
    (h : cells.length = 6) :
    (parseRankingRow g w a s cells).map RankingEntry.coefficient = some 0 := by
  have h6 : 6 ≤ cells.length := by omega
  have hg : coefGuard cells = false := by
    simp only [coefGuard, Bool.and_eq_false_iff, decide_eq_false_iff_not]
    left
    omega
  simp [parseRankingRow, h6, hg]

/-- Claim C10, witness at a concrete minimum-width ranking row. -/
theorem six_cell_row_zero_coefficient_witness :
    (parseRankingRow "men" "foil" "cadet" "2024"
      ["1", "Grand Prix Paris", "Paris", "FRA", "Senior", "Foil"]).map
      RankingEntry.coefficient = some 0 :=
  six_cell_row_zero_coefficient "men" "foil" "cadet" "2024"
    ["1", "Grand Prix Paris", "Paris", "FRA", "Senior", "Foil"] (by decide)

/-- The fencer row loop run from any accumulator equals the accumulator
followed by the loop run from the empty accumulator: the records produced
depend only on the rows and the filter, not on previously accumulated
state. -/
theorem fencersRowLoop_append_acc (gender : String) :
    ∀ (rows : List (List String)) (acc : List FencerProfile),
      fencersRowLoop gender rows acc = acc ++ fencersRowLoop gender rows [] := by
  intro rows
  induction rows with
  | nil =>
    intro acc
    simp [fencersRowLoop]
  | cons cells rest ih =>
    intro acc
    cases h : parseFencerRow gender cells with
    | none =>
      simp only [fencersRowLoop, h]
      exact ih acc
    | some f =>
      simp only [fencersRowLoop, h]
      rw [ih (acc ++ [f]), ih ([] ++ [f])]
      simp

/-- Accumulator independence for the ranking row loop. -/
theorem rankingsRowLoop_append_acc (g w a s : String) :
    ∀ (rows : List (List String)) (acc : List RankingEntry),
      rankingsRowLoop g w a s rows acc = acc ++ rankingsRowLoop g w a s rows [] := by
  intro rows
  induction rows with
  | nil =>
    intro acc
    simp [rankingsRowLoop]
  | cons cells rest ih =>
    intro acc
    cases h : parseRankingRow g w a s cells with
    | none =>
      simp only [rankingsRowLoop, h]
      exact ih acc
    | some r =>
      simp only [rankingsRowLoop, h]
      rw [ih (acc ++ [r]), ih ([] ++ [r])]
      simp

/-- Claim C9: both row loops are pure functions of the cell texts and the
active filter values — the output over a row list from any accumulated
state is that state followed by a contribution that does not depend on it,
so replaying the same raw rows always yields identical record lists. -/
theorem row_loops_accumulator_independent (g w a s : String) (rows : List (List String))
    (accF : List FencerProfile) (accR : List RankingEntry) :
    fencersRowLoop g rows accF = accF ++ fencersRowLoop g rows [] ∧
    rankingsRowLoop g w a s rows accR = accR ++ rankingsRowLoop g w a s rows [] :=
  ⟨fencersRowLoop_append_acc g rows accF, rankingsRowLoop_append_acc g w a s rows accR⟩

/-- Claim C3, counterexample: a combination ceiling of 0 is falsy in the
source's `if limit_combinations and ...` test, so the ceiling is ignored
and all 144 combinations are fetched instead of 0. -/
theorem zero_limit_scrapes_all_combinations :
    (scrape_all_rankings_combos (some 0)).length = 144 ∧ (144 : Nat) ≠ 0 := by
  constructor
  · decide
  · decide

/-- Count and final-ceiling-state of the innermost (season) loop: with a
nonzero ceiling l, it emits min(#seasons, l - scraped) combinations and
advances the scraped counter by exactly that amount. -/
theorem seasonLoop_spec (g w a : String) (l : Nat) (hl : l ≠ 0) :
    ∀ (seasons : List String) (scraped : Nat),
      (seasonLoop g w a seasons (some l) scraped).1.length =
        min seasons.length (l - scraped) ∧
      (seasonLoop g w a seasons (some l) scraped).2 =
        scraped + (seasonLoop g w a seasons (some l) scraped).1.length := by
  intro seasons
  induction seasons with
  | nil =>
    intro scraped
    simp [seasonLoop]
  | cons s rest ih =>
    intro scraped
    by_cases hr : l ≤ scraped
    · have hlr : limitReached (some l) scraped = true := by
        simp only [limitReached, Bool.and_eq_true, bne_iff_ne, ne_eq, decide_eq_true_eq]
        exact ⟨hl, hr⟩
      simp only [seasonLoop, hlr, if_true, List.length_nil]
      omega
    · have hlr : limitReached (some l) scraped = false := by
        simp only [limitReached, Bool.and_eq_false_iff, decide_eq_false_iff_not]
        right
        omega
      obtain ⟨ih1, ih2⟩ := ih (scraped + 1)
      simp only [seasonLoop, hlr, Bool.false_eq_true, if_false, List.length_cons]
      omega

/-- Count and final-ceiling-state of the age-category loop: each age
category contributes a full 8-season sweep, truncated by the ceiling. -/
theorem ageLoop_spec (g w : String) (l : Nat) (hl : l ≠ 0) :
    ∀ (ages : List String) (scraped : Nat),
      (ageLoop g w ages (some l) scraped).1.length =
        min (8 * ages.length) (l - scraped) ∧
      (ageLoop g w ages (some l) scraped).2 =
        scraped + (ageLoop g w ages (some l) scraped).1.length := by
  intro ages
  induction ages with
  | nil =>
    intro scraped
    simp [ageLoop]
  | cons a rest ih =>
    intro scraped
    obtain ⟨hs1, hs2⟩ := seasonLoop_spec g w a l hl filter_seasons scraped
    have hslen : (filter_seasons).length = 8 := rfl
    rw [hslen] at hs1
    by_cases hr : l ≤ (seasonLoop g w a filter_seasons (some l) scraped).2
    · have hlr : limitReached (some l) (seasonLoop g w a filter_seasons (some l) scraped).2 =
          true := by
        simp only [limitReached, Bool.and_eq_true, bne_iff_ne, ne_eq, decide_eq_true_eq]
        exact ⟨hl, hr⟩
      simp only [ageLoop, hlr, if_true, List.length_cons]
      omega
    · have hlr : limitReached (some l) (seasonLoop g w a filter_seasons (some l) scraped).2 =
          false := by
        simp only [limitReached, Bool.and_eq_false_iff, decide_eq_false_iff_not]
        right
        omega
      obtain ⟨ih1, ih2⟩ := ih (seasonLoop g w a filter_seasons (some l) scraped).2
      simp only [ageLoop, hlr, Bool.false_eq_true, if_false, List.length_append,
        List.length_cons]
      omega

/-- Count and final-ceiling-state of the weapon loop: each weapon
contributes a 3 x 8 = 24 combination block, truncated by the ceiling. -/
theorem weaponLoop_spec (g : String) (l : Nat) (hl : l ≠ 0) :
    ∀ (weapons : List String) (scraped : Nat),
      (weaponLoop g weapons (some l) scraped).1.length =
        min (24 * weapons.length) (l - scraped) ∧
      (weaponLoop g weapons (some l) scraped).2 =
        scraped + (weaponLoop g weapons (some l) scraped).1.length := by
  intro weapons
  induction weapons with
  | nil =>
    intro scraped
    simp [weaponLoop]
  | cons w rest ih =>
    intro scraped
    obtain ⟨ha1, ha2⟩ := ageLoop_spec g w l hl filter_age_categories scraped
    have halen : (filter_age_categories).length = 3 := rfl
    rw [halen] at ha1
    by_cases hr : l ≤ (ageLoop g w filter_age_categories (some l) scraped).2
    · have hlr : limitReached (some l) (ageLoop g w filter_age_categories (some l) scraped).2 =
          true := by
        simp only [limitReached, Bool.and_eq_true, bne_iff_ne, ne_eq, decide_eq_true_eq]
        exact ⟨hl, hr⟩
      simp only [weaponLoop, hlr, if_true, List.length_cons]
      omega
    · have hlr : limitReached (some l) (ageLoop g w filter_age_categories (some l) scraped).2 =
          false := by
        simp only [limitReached, Bool.and_eq_false_iff, decide_eq_false_iff_not]
        right
        omega
      obtain ⟨ih1, ih2⟩ := ih (ageLoop g w filter_age_categories (some l) scraped).2
      simp only [weaponLoop, hlr, Bool.false_eq_true, if_false, List.length_append,
        List.length_cons]
      omega

/-- Count and final-ceiling-state of the gender (outermost) loop: each
gender contributes a 3 x 3 x 8 = 72 combination block, truncated by the
ceiling. -/
theorem genderLoop_spec (l : Nat) (hl : l ≠ 0) :
    ∀ (genders : List String) (scraped : Nat),
      (genderLoop genders (some l) scraped).1.length =
        min (72 * genders.length) (l - scraped) ∧
      (genderLoop genders (some l) scraped).2 =
        scraped + (genderLoop genders (some l) scraped).1.length := by
  intro genders
  induction genders with
  | nil =>
    intro scraped
    simp [genderLoop]
  | cons g rest ih =>
    intro scraped
    obtain ⟨hw1, hw2⟩ := weaponLoop_spec g l hl filter_weapons scraped
    have hwlen : (filter_weapons).length = 3 := rfl
    rw [hwlen] at hw1
    by_cases hr : l ≤ (weaponLoop g filter_weapons (some l) scraped).2
    · have hlr : limitReached (some l) (weaponLoop g filter_weapons (some l) scraped).2 =
          true := by
        simp only [limitReached, Bool.and_eq_true, bne_iff_ne, ne_eq, decide_eq_true_eq]
        exact ⟨hl, hr⟩
      simp only [genderLoop, hlr, if_true, List.length_cons]
      omega
    · have hlr : limitReached (some l) (weaponLoop g filter_weapons (some l) scraped).2 =
          false := by
        simp only [limitReached, Bool.and_eq_false_iff, decide_eq_false_iff_not]
        right
        omega
      obtain ⟨ih1, ih2⟩ := ih (weaponLoop g filter_weapons (some l) scraped).2
      simp only [genderLoop, hlr, Bool.false_eq_true, if_false, List.length_append,
        List.length_cons]
      omega

/-- Claim C3, amended: for every ceiling N with 1 ≤ N ≤ 144 (the size of
the full gender x weapon x age_category x season cross-product) the ranking
fetch is invoked exactly N times, wherever in the nesting the ceiling is
reached; a ceiling of 0 is treated as no ceiling (all 144 fetches), and a
ceiling above 144 results in all 144 fetches. -/
theorem limit_combinations_exact_count (N : Nat) (h1 : 1 ≤ N) (h2 : N ≤ 144) :
    (scrape_all_rankings_combos (some N)).length = N := by
  have hN : N ≠ 0 := by omega
  obtain ⟨hg1, _⟩ := genderLoop_spec N hN filter_genders 0
  have hglen : (filter_genders).length = 2 := rfl
  rw [hglen] at hg1
  simp only [scrape_all_rankings_combos]
  omega

/-- Claim C3, witness: a ceiling of 10 yields exactly 10 fetches. -/
theorem limit_combinations_exact_count_witness :
    (scrape_all_rankings_combos (some 10)).length = 10 :=
  limit_combinations_exact_count 10 (by decide) (by decide)

/-- The paging loop started at any page p: if every page before k is
nonempty and page k is empty, the pages fetched from p are exactly
p, p+1, ..., min k m, given a positive ceiling m and enough fuel. -/
theorem fencerPages_range (fetch : Nat → List FencerProfile) (m k : Nat)
    (hm : 0 < m)
    (hne : ∀ q, 0 < q → q < k → fetch q ≠ [])
    (hke : fetch k = []) :
    ∀ (fuel p : Nat), 0 < p → p ≤ k → k + m < fuel + p →
      fencerPages fetch (some m) fuel p = List.range' p (min k m + 1 - p) := by
  intro fuel
  induction fuel with
  | zero =>
    intro p hp hpk hfuel
    omega
  | succ fuel ih =>
    intro p hp hpk hfuel
    by_cases hpm : m < p
    · have hc : pageCeilingHit (some m) p = true := by
        simp only [pageCeilingHit, Bool.and_eq_true, bne_iff_ne, ne_eq, decide_eq_true_eq]
        omega
      have hlen : min k m + 1 - p = 0 := by omega
      simp [fencerPages, hc, hlen]
    · have hc : pageCeilingHit (some m) p = false := by
        simp only [pageCeilingHit, Bool.and_eq_false_iff, decide_eq_false_iff_not]
        right
        omega
      by_cases hpk2 : p = k
      · have hemp : (fetch p).isEmpty = true := by
          rw [hpk2, hke]
          rfl
        have hlen : min k m + 1 - p = 1 := by omega
        simp [fencerPages, hc, hemp, hlen]
      · have hplt : p < k := by omega
        have hemp : (fetch p).isEmpty = false := by
          cases hfp : fetch p with
          | nil => exact absurd hfp (hne p hp hplt)
          | cons x xs => rfl
        have hrec := ih (p + 1) (by omega) (by omega) (by omega)
        have hlen : min k m + 1 - p = (min k m + 1 - (p + 1)) + 1 := by omega
        simp only [fencerPages, hc, hemp, Bool.false_eq_true, if_false, List.isEmpty_eq_false]
        rw [hrec, hlen, List.range'_succ]

/-- Claim C6, amended: for a positive page ceiling m, if the first page on
which the fetch comes back empty is k, then the pages fetched for a country
are exactly 1, 2, ..., min k m — paging starts at 1, stops exactly at the
first empty page when that happens within the ceiling, and never fetches a
page beyond the ceiling; a ceiling of 0 is falsy in the source's
`if max_pages and page > max_pages` test and so disables the ceiling. -/
theorem fencer_sweep_pages_exact (fetch : Nat → List FencerProfile) (m k fuel : Nat)
    (hm : 0 < m) (hk : 0 < k)
    (hne : ∀ q, 0 < q → q < k → fetch q ≠ [])
    (hke : fetch k = [])
    (hfuel : k + m ≤ fuel) :
    scrape_all_fencers_pages fetch (some m) fuel = List.range' 1 (min k m) := by
  have h := fencerPages_range fetch m k hm hne hke fuel 1 (by omega) hk (by omega)
  simpa [scrape_all_fencers_pages] using h

/-- A concrete per-country fetch whose pages 1 and 2 are nonempty and whose
page 3 is empty, used to witness the paging characterization. -/
def demoFetch (page : Nat) : List FencerProfile :=
  if page ≤ 2 then [⟨"00000001", "Jane", "Doe", "Club X", "FRA", 1998, "F", "R"⟩] else []

/-- Claim C6, witness: with ceiling 10 and first empty page 3, exactly
pages 1, 2, 3 are fetched. -/
theorem fencer_sweep_pages_exact_witness :
    scrape_all_fencers_pages demoFetch (some 10) 20 = [1, 2, 3] := by
  have h := fencer_sweep_pages_exact demoFetch 10 3 20 (by decide) (by decide)
    (by
      intro q h1 h2
      interval_cases q <;> decide)
    (by decide) (by decide)
  rw [h]
  decide

/-- Claim C6, counterexample: with a configured page ceiling of 0 the loop
still fetches page 1 (and 1 > 0), because 0 is falsy and disables the
ceiling test — so "no page number greater than max_pages is ever fetched"
fails at max_pages = 0. -/
theorem zero_page_ceiling_still_fetches :
    scrape_all_fencers_pages (fun _ => ([] : List FencerProfile)) (some 0) 5 = [1] ∧
    (0 : Nat) < 1 := by
  constructor
  · decide
  · decide

end EuroFencing
